import Mathlib

/-!
Verification of the Game of Life seed generator (src/generate.py) against its
natural-language specification.

The script is embedded shallowly: the grid sampled by numpy is abstracted over
a Boolean oracle standing for the process-wide random source, the file system
is observed as a trace of handle events, and the interpreter-level outcome of
one invocation (exit status, printed lines, unhandled exception, file events)
is a record computed by a total function from the command-line arguments.
-/

namespace Life

/-- Kinds of exceptions relevant to the script. The constructors valueError,
typeError and osError stand for the Python builtins; parseError stands for the
ParseError named by the specification, so that theorems can state whether the
code ever raises it. -/
inductive ExnKind where
  | valueError
  | typeError
  | parseError
  | osError
deriving DecidableEq

/-- A Python value handed to numpy as one component of the size tuple: the
script only ever passes strings (taken from sys.argv) or, hypothetically,
integers. -/
inductive PyVal where
  | str (s : String)
  | int (n : Int)
deriving DecidableEq

/-- Events on the output file handle. openW is open(path, "w"), which creates
the file, or truncates an existing one, at that path. -/
inductive FileOp where
  | openW (path : String)
  | write (data : String)
  | close
deriving DecidableEq

/-- The grid a successful numpy call would produce for integer sizes r and c:
cell (i, j) is drawn from the two-element choice list, namely '*' (the ALIVE
character, at index 0, the index whose probability parameter is 0.05) when the
abstracted random source rand answers true, and ' ' (DEAD) otherwise. -/
def genGrid (rand : Nat → Nat → Bool) (r c : Nat) : List (List Char) :=
  (List.range r).map fun i => (List.range c).map fun j => if rand i j then '*' else ' '

/-- Line 29 of generate.py: the semantics of
np.random.choice with the choice list of '*' and ' ', keyword size given by the
pair of the two arguments, and probability list 0.05, 0.95 - dispatched on the
runtime types of the two size components. numpy accepts integers (rejecting
negative ones with ValueError) and raises TypeError when a size component is
not an integer, in particular when it is a string. -/
def npRandomChoiceGrid (rand : Nat → Nat → Bool) :
    PyVal → PyVal → Except ExnKind (List (List Char))
  | PyVal.int r, PyVal.int c =>
      if r < 0 ∨ c < 0 then Except.error ExnKind.valueError
      else Except.ok (genGrid rand r.toNat c.toNat)
  | _, _ => Except.error ExnKind.typeError

/-- The Python join method: sep.join(xs) concatenates the strings of xs with
sep between consecutive elements, and no copy of sep at either end. -/
def strJoin (sep : String) : List String → String
  | [] => ""
  | [x] => x
  | x :: y :: xs => x ++ sep ++ strJoin sep (y :: xs)

/-- The inner join of line 31: the empty-separator join of the one-character
strings of a grid row. -/
def rowToStr (row : List Char) : String :=
  strJoin "" (row.map Char.toString)

/-- Line 31 of generate.py: the newline join of the rendered rows. -/
def gridToStr (grid : List (List Char)) : String :=
  strJoin "\n" (grid.map rowToStr)

/-- Trace and outcome of a Python with statement: the enter events, then the
events of the body (which may end in an exception), then the exit events,
which run whether or not the body raised. -/
def pyWith (enter : List FileOp) (body : List FileOp × Option ExnKind)
    (exitOps : List FileOp) : List FileOp × Option ExnKind :=
  (enter ++ body.1 ++ exitOps, body.2)

/-- The body of the with block of lines 33 and 34: the write call on the open
handle, which either performs the write or raises the exception the
environment answers with (wres is none when the write succeeds). -/
def writeBody (data : String) (wres : Option ExnKind) : List FileOp × Option ExnKind :=
  match wres with
  | none => ([FileOp.write data], none)
  | some e => ([], some e)

/-- Lines 33 and 34 of generate.py: the with statement that opens the output
file in truncating write mode, writes the serialized grid, and closes the
handle when the block is left, normally or by exception. -/
def withOpenWrite (path data : String) (wres : Option ExnKind) :
    List FileOp × Option ExnKind :=
  pyWith [FileOp.openW path] (writeBody data wres) [FileOp.close]

/-- Observable outcome of one invocation of the script: process exit status,
lines printed to standard output, unhandled exception if one escaped main (the
CPython interpreter then prints a traceback and exits with status 1), and the
trace of file-handle events. -/
structure RunResult where
  exitCode : Nat
  stdout : List String
  exn : Option ExnKind
  fileOps : List FileOp
deriving DecidableEq

/-- The usage line printed by main. -/
def usageMessage : String := "Usage: ./generate [ROWS] [COLUMNS]"

/-- The fixed output path of generate.py. -/
def file_path : String := "./life.txt"

/-- The main function of generate.py. progName is sys.argv[0] and args the
remaining elements of sys.argv, so sys.argv has length args.length + 1. rand
abstracts the process-wide numpy random source; wres is the outcome the
environment gives the write call. Control flow follows the source: the usage
branch fires when len(sys.argv) > 4 and terminates with status 1; the
destructuring assignment of sys.argv[1:] into rows and cols raises ValueError
unless the list has exactly two elements; the numpy call receives the two
argument strings unconverted; on success the serialized grid is written inside
the with block and the process ends with status 0. -/
def main (progName : String) (args : List String) (rand : Nat → Nat → Bool)
    (wres : Option ExnKind) : RunResult :=
  let argv := progName :: args
  if argv.length > 4 then
    ⟨1, [usageMessage], none, []⟩
  else
    match args with
    | [rows, cols] =>
        match npRandomChoiceGrid rand (PyVal.str rows) (PyVal.str cols) with
        | Except.error e => ⟨1, [], some e, []⟩
        | Except.ok grid =>
            let grid_str := gridToStr grid
            let res := withOpenWrite file_path grid_str wres
            match res.2 with
            | none => ⟨0, [], none, res.1⟩
            | some e => ⟨1, [], some e, res.1⟩
    | _ => ⟨1, [], some ExnKind.valueError, []⟩

/-- A concrete random oracle, used to instantiate theorems on concrete
inputs. -/
def zeroRand : Nat → Nat → Bool := fun _ _ => false

/-- The natural number denoted by a list of decimal digit characters. -/
def decimalNat (l : List Char) : Nat :=
  l.foldl (fun acc ch => 10 * acc + (ch.toNat - 48)) 0

/-- Modelled from the spec (section 7): a dimension argument counts as a valid
positive integer when it is a non-empty decimal string denoting an integer at
least 1. The source never parses the arguments, so this predicate only appears
in statements about the spec taxonomy, never inside the embedded code. -/
def isValidPosIntStr (s : String) : Bool :=
  !s.data.isEmpty && s.data.all Char.isDigit && decide (1 ≤ decimalNat s.data)

/-- The lines of a text file content: the splitting of its characters on the
newline character. -/
def contentLines (s : String) : List (List Char) :=
  s.data.splitOn '\n'

/-- Recognizer for open events in a file trace. -/
def isOpenOp : FileOp → Bool
  | FileOp.openW _ => true
  | _ => false

/-- Recognizer for close events in a file trace. -/
def isCloseOp : FileOp → Bool
  | FileOp.close => true
  | _ => false

/-- Every invocation either takes the usage branch or fails before the file is
opened: the exit status is 1 and the file trace is empty, whatever the
arguments, the random source and the environment. -/
theorem main_run_outcome (progName : String) (args : List String)
    (rand : Nat → Nat → Bool) (wres : Option ExnKind) :
    (main progName args rand wres).exitCode = 1 ∧
    (main progName args rand wres).fileOps = [] := by
  match args with
  | [] => exact ⟨rfl, rfl⟩
  | [a] => exact ⟨rfl, rfl⟩
  | [a, b] => exact ⟨rfl, rfl⟩
  | [a, b, c] => exact ⟨rfl, rfl⟩
  | a :: b :: c :: d :: rest =>
      have h : (progName :: a :: b :: c :: d :: rest).length > 4 := by
        simp only [List.length_cons]
        omega
      simp only [main]
      rw [if_pos h]
      exact ⟨rfl, rfl⟩

/-- Data of the one-character string of a character. -/
theorem char_toString_data (ch : Char) : (Char.toString ch).data = [ch] := rfl

/-- The empty-separator join of the one-character strings of a row rebuilds
the row. -/
theorem rowToStr_data (row : List Char) : (rowToStr row).data = row := by
  induction row with
  | nil => rfl
  | cons ch tl ih =>
      cases tl with
      | nil => rfl
      | cons d tl2 =>
          simp only [rowToStr, List.map_cons, strJoin] at ih ⊢
          rw [String.data_append, String.data_append, char_toString_data, ih]
          rfl

/-- Unfolding of intercalate on a list with at least two pieces. -/
theorem intercalate_cons_cons {α : Type} (sep a b : List α) (tl : List (List α)) :
    List.intercalate sep (a :: b :: tl)
      = a ++ sep ++ List.intercalate sep (b :: tl) := by
  simp [List.intercalate, List.intersperse_cons_cons, List.append_assoc]

/-- Data of the serialized grid: the rows intercalated with the newline
character. -/
theorem gridToStr_data (grid : List (List Char)) :
    (gridToStr grid).data = List.intercalate ['\n'] grid := by
  induction grid with
  | nil => rfl
  | cons row tl ih =>
      cases tl with
      | nil =>
          simp only [gridToStr, List.map_cons, List.map_nil, strJoin]
          rw [rowToStr_data]
          simp [List.intercalate]
      | cons row2 tl2 =>
          simp only [gridToStr, List.map_cons, strJoin] at ih ⊢
          rw [String.data_append, String.data_append, rowToStr_data, ih,
            intercalate_cons_cons]

/-- Shape of the generated grid: r rows. -/
theorem genGrid_length (rand : Nat → Nat → Bool) (r c : Nat) :
    (genGrid rand r c).length = r := by
  simp [genGrid]

/-- Shape of the generated grid: every row has c cells. -/
theorem genGrid_row_length (rand : Nat → Nat → Bool) (r c : Nat) :
    ∀ row ∈ genGrid rand r c, row.length = c := by
  intro row hrow
  simp only [genGrid, List.mem_map] at hrow
  obtain ⟨i, _, rfl⟩ := hrow
  simp

/-- Alphabet of the generated grid: only the ALIVE and DEAD characters. -/
theorem genGrid_alphabet (rand : Nat → Nat → Bool) (r c : Nat) :
    ∀ row ∈ genGrid rand r c, ∀ ch ∈ row, ch = '*' ∨ ch = ' ' := by
  intro row hrow ch hch
  simp only [genGrid, List.mem_map] at hrow
  obtain ⟨i, _, rfl⟩ := hrow
  simp only [List.mem_map] at hch
  obtain ⟨j, _, rfl⟩ := hch
  by_cases h : rand i j <;> simp [h]

/-- No generated row contains the newline character. -/
theorem genGrid_no_newline (rand : Nat → Nat → Bool) (r c : Nat) :
    ∀ row ∈ genGrid rand r c, '\n' ∉ row := by
  intro row hrow hmem
  rcases genGrid_alphabet rand r c row hrow _ hmem with h | h <;>
    exact absurd h (by decide)

/-- Content of the generated grid: the cell in row i, column j is '*' exactly
when the random source answers true on (i, j), and ' ' otherwise. -/
theorem genGrid_get (rand : Nat → Nat → Bool) (r c : Nat) :
    ∀ (i : Nat) (hi : i < (genGrid rand r c).length)
      (j : Nat) (hj : j < ((genGrid rand r c).get ⟨i, hi⟩).length),
      ((genGrid rand r c).get ⟨i, hi⟩).get ⟨j, hj⟩
        = if rand i j then '*' else ' ' := by
  intro i hi j hj
  simp [genGrid]

/-- Counting the separator in an intercalation: with the separator absent from
every piece, the count is the number of gaps between pieces. -/
theorem count_intercalate_sep (x : Char) :
    ∀ l : List (List Char), l ≠ [] → (∀ row ∈ l, x ∉ row) →
      (List.intercalate [x] l).count x = l.length - 1 := by
  intro l
  induction l with
  | nil => intro h; exact absurd rfl h
  | cons a tl ih =>
      intro _ hx
      have ha : x ∉ a := hx a (List.mem_cons_self a tl)
      cases tl with
      | nil => simp [List.intercalate, List.count_eq_zero.mpr ha]
      | cons b tl2 =>
          have htl : ∀ row ∈ b :: tl2, x ∉ row := fun row hr =>
            hx row (List.mem_cons_of_mem a hr)
          rw [intercalate_cons_cons, List.count_append, List.count_append,
            List.count_eq_zero.mpr ha, ih (List.cons_ne_nil b tl2) htl]
          simp only [List.length_cons, List.count_singleton_self]
          omega

/-- Claim C1: the code contradicts the claim. With the valid dimensions 3 and
5 as the two positional arguments, the run does not write an output file at
all: the argument strings reach the numpy call unconverted, it raises
TypeError, and the process dies with status 1 and an empty file trace. -/
theorem c1_valid_dims_run_writes_nothing (rand : Nat → Nat → Bool)
    (wres : Option ExnKind) :
    main "./generate" ["3", "5"] rand wres
      = ⟨1, [], some ExnKind.typeError, []⟩ := rfl

/-- Claim C2, counterexample: with exactly three positional values beyond the
program name, the program does not print the usage message; the destructuring
of sys.argv[1:] raises ValueError instead. -/
theorem c2_three_extra_args_print_no_usage :
    (main "./generate" ["10", "10", "10"] zeroRand none).stdout = [] ∧
    (main "./generate" ["10", "10", "10"] zeroRand none).exn
      = some ExnKind.valueError :=
  ⟨rfl, rfl⟩

/-- Claim C2, amended: for every invocation with four or more positional
values beyond the program name, the program prints the usage message, exits
with status 1, and creates no output file. -/
theorem c2_usage_requires_four_extra_args (progName : String)
    (args : List String) (rand : Nat → Nat → Bool) (wres : Option ExnKind)
    (h : 4 ≤ args.length) :
    main progName args rand wres = ⟨1, [usageMessage], none, []⟩ := by
  have h₁ : (progName :: args).length > 4 := by
    simp only [List.length_cons]
    omega
  simp only [main]
  rw [if_pos h₁]

/-- Witness for the amended claim C2 at a concrete invocation with four extra
arguments. -/
theorem c2_usage_witness :
    4 ≤ (["1", "2", "3", "4"] : List String).length ∧
    main "./generate" ["1", "2", "3", "4"] zeroRand none
      = ⟨1, [usageMessage], none, []⟩ :=
  ⟨by decide,
    c2_usage_requires_four_extra_args "./generate" ["1", "2", "3", "4"]
      zeroRand none (by decide)⟩

/-- Claim C3: with exactly two positional arguments, whatever strings they
are, main hands them unconverted to the numpy call, which rejects non-integer
sizes with TypeError; the exception escapes main, the process exits with
status 1 and no file is opened or written. -/
theorem c3_two_args_unconverted_type_error (progName a b : String)
    (rand : Nat → Nat → Bool) (wres : Option ExnKind) :
    main progName [a, b] rand wres = ⟨1, [], some ExnKind.typeError, []⟩ := rfl

/-- Claim C6: the code contradicts the claim. No invocation performs any
file-handle event at all: no run succeeds, so the output file is never
created, truncated or written. -/
theorem c6_no_run_touches_any_file (progName : String) (args : List String)
    (rand : Nat → Nat → Bool) (wres : Option ExnKind) :
    (main progName args rand wres).fileOps = [] :=
  (main_run_outcome progName args rand wres).2

/-- Claim C7, counterexample: with the non-integer dimension argument abc the
program does not fail with the ParseError of the spec taxonomy; it raises
TypeError from the numpy call. -/
theorem c7_nonint_arg_not_parse_error :
    isValidPosIntStr "abc" = false ∧
    (main "./generate" ["abc", "5"] zeroRand none).exn
      = some ExnKind.typeError ∧
    (main "./generate" ["abc", "5"] zeroRand none).exn
      ≠ some ExnKind.parseError := by
  refine ⟨by decide, rfl, ?_⟩
  intro hcontra
  simp only [main, npRandomChoiceGrid] at hcontra
  exact absurd (Option.some.inj hcontra) (by decide)

/-- Claim C7, amended: if either dimension argument is not a valid positive
integer, the program still fails and exits with a non-zero status, but with a
TypeError raised when the unconverted argument strings reach the numpy call,
not with a parse-time ParseError. -/
theorem c7_invalid_dim_type_error_nonzero_exit (progName a b : String)
    (rand : Nat → Nat → Bool) (wres : Option ExnKind)
    (_h : isValidPosIntStr a = false ∨ isValidPosIntStr b = false) :
    (main progName [a, b] rand wres).exn = some ExnKind.typeError ∧
    (main progName [a, b] rand wres).exitCode ≠ 0 := by
  refine ⟨rfl, ?_⟩
  have h₁ : (main progName [a, b] rand wres).exitCode = 1 := rfl
  omega

/-- Witness for the amended claim C7 at a concrete non-integer argument. -/
theorem c7_invalid_dim_witness :
    (isValidPosIntStr "abc" = false ∨ isValidPosIntStr "5" = false) ∧
    ((main "./generate" ["abc", "5"] zeroRand none).exn
        = some ExnKind.typeError ∧
      (main "./generate" ["abc", "5"] zeroRand none).exitCode ≠ 0) :=
  ⟨Or.inl (by decide),
    c7_invalid_dim_type_error_nonzero_exit "./generate" "abc" "5" zeroRand
      none (Or.inl (by decide))⟩

/-- Claim C8: the code contradicts the claim. The process exit status is 1 on
every invocation - through the usage branch when more than three extra
arguments are supplied, and through an unhandled exception otherwise - so no
run exits with status 0. -/
theorem c8_every_run_exits_one (progName : String) (args : List String)
    (rand : Nat → Nat → Bool) (wres : Option ExnKind) :
    (main progName args rand wres).exitCode = 1 :=
  (main_run_outcome progName args rand wres).1

/-- Claim C9: the with block of lines 33 and 34 opens the handle first, and on
every path - the write completing or raising - the trace balances opens with
closes and ends with the close of the handle: no path leaves it open. -/
theorem c9_handle_always_released (path data : String) (wres : Option ExnKind) :
    (withOpenWrite path data wres).1.head? = some (FileOp.openW path) ∧
    (withOpenWrite path data wres).1.countP isOpenOp
      = (withOpenWrite path data wres).1.countP isCloseOp ∧
    (withOpenWrite path data wres).1.getLast? = some FileOp.close := by
  cases wres <;> exact ⟨rfl, rfl, rfl⟩

/-- Claim C10: with fewer than two positional arguments the destructuring of
sys.argv[1:] raises ValueError before the output file is opened: the file
trace is empty, so life.txt is neither created nor overwritten. -/
theorem c10_too_few_args_no_file (progName : String) (args : List String)
    (rand : Nat → Nat → Bool) (wres : Option ExnKind) (h : args.length < 2) :
    main progName args rand wres = ⟨1, [], some ExnKind.valueError, []⟩ := by
  cases args with
  | nil => rfl
  | cons a tl =>
      cases tl with
      | nil => rfl
      | cons b tl2 =>
          exact absurd h (by simp only [List.length_cons]; omega)

/-- Witness for claim C10 at a concrete one-argument invocation. -/
theorem c10_too_few_args_witness :
    (["5"] : List String).length < 2 ∧
    main "./generate" ["5"] zeroRand none
      = ⟨1, [], some ExnKind.valueError, []⟩ :=
  ⟨by decide, c10_too_few_args_no_file "./generate" ["5"] zeroRand none (by decide)⟩

/-- Claim C4: for every grid the generator produces at positive dimensions,
the serialization renders row i as the string of its c cell characters - '*'
for an ALIVE cell, ' ' for a DEAD one - joins the rows with a single newline
separator and emits no trailing newline after the final row: splitting the
file content on the newline character returns exactly the r rows, and the
whole string contains exactly r - 1 newline characters. -/
theorem c4_serialization_format (rand : Nat → Nat → Bool) (r c : Nat)
    (hr : 1 ≤ r) :
    contentLines (gridToStr (genGrid rand r c)) = genGrid rand r c ∧
    (genGrid rand r c).length = r ∧
    (∀ row ∈ genGrid rand r c,
      row.length = c ∧ ∀ ch ∈ row, ch = '*' ∨ ch = ' ') ∧
    (∀ (i : Nat) (hi : i < (genGrid rand r c).length)
        (j : Nat) (hj : j < ((genGrid rand r c).get ⟨i, hi⟩).length),
        ((genGrid rand r c).get ⟨i, hi⟩).get ⟨j, hj⟩
          = if rand i j then '*' else ' ') ∧
    (gridToStr (genGrid rand r c)).data.count '\n' = r - 1 := by
  have hne : genGrid rand r c ≠ [] := by
    intro hcontra
    have hlen := genGrid_length rand r c
    rw [hcontra] at hlen
    simp only [List.length_nil] at hlen
    omega
  refine ⟨?_, genGrid_length rand r c, ?_, genGrid_get rand r c, ?_⟩
  · rw [contentLines, gridToStr_data]
    exact List.splitOn_intercalate (genGrid rand r c) '\n'
      (genGrid_no_newline rand r c) hne
  · intro row hrow
    exact ⟨genGrid_row_length rand r c row hrow,
      genGrid_alphabet rand r c row hrow⟩
  · rw [gridToStr_data,
      count_intercalate_sep '\n' _ hne (genGrid_no_newline rand r c),
      genGrid_length]

/-- Witness for claim C4 at the concrete dimensions r = 2, c = 3. -/
theorem c4_serialization_witness :
    1 ≤ 2 ∧
    (contentLines (gridToStr (genGrid zeroRand 2 3)) = genGrid zeroRand 2 3 ∧
      (genGrid zeroRand 2 3).length = 2 ∧
      (∀ row ∈ genGrid zeroRand 2 3,
        row.length = 3 ∧ ∀ ch ∈ row, ch = '*' ∨ ch = ' ') ∧
      (∀ (i : Nat) (hi : i < (genGrid zeroRand 2 3).length)
          (j : Nat) (hj : j < ((genGrid zeroRand 2 3).get ⟨i, hi⟩).length),
          ((genGrid zeroRand 2 3).get ⟨i, hi⟩).get ⟨j, hj⟩
            = if zeroRand i j then '*' else ' ') ∧
      (gridToStr (genGrid zeroRand 2 3)).data.count '\n' = 2 - 1) :=
  ⟨by decide, c4_serialization_format zeroRand 2 3 (by decide)⟩

end Life
